import Mathlib

/-!
Verification of the MVE `TriangleMesh` container
(src/libs/mve/trianglemesh.h) against its natural-language
specification.

The header stores eight parallel attribute arrays and defines inline the
operations `clear`, `clear_normals` and the five `has_*` consistency
predicates; those are embedded here directly from the source.  The
operations `recalc_normals`, `ensure_normals`, `delete_vertices` and
`get_byte_size` are only declared in the header (their definitions live in
a translation unit that is not part of the sources at hand), so they are
modelled from the specification text, as marked in their doc comments.

C++ `float` components are modelled as exact rationals; the verified
properties concern array lengths, frame conditions and idempotence, never
the numeric values of computed normals.
-/

/-- Three-component vector (models `math::Vec3f`). -/
abbrev Vec3 : Type := ℚ × ℚ × ℚ

/-- Four-component vector (models `math::Vec4f`). -/
abbrev Vec4 : Type := ℚ × ℚ × ℚ × ℚ

/-- Two-component vector (models `math::Vec2f`). -/
abbrev Vec2 : Type := ℚ × ℚ

/-- Zero vector. -/
def vzero : Vec3 := (0, 0, 0)

/-- Componentwise vector addition. -/
def vadd (a b : Vec3) : Vec3 := (a.1 + b.1, a.2.1 + b.2.1, a.2.2 + b.2.2)

/-- Componentwise vector subtraction (edge vectors of a triangle). -/
def vsub (a b : Vec3) : Vec3 := (a.1 - b.1, a.2.1 - b.2.1, a.2.2 - b.2.2)

/-- Scalar multiple of a vector. -/
def vscale (s : ℚ) (a : Vec3) : Vec3 := (s * a.1, s * a.2.1, s * a.2.2)

/-- Cross product of two vectors. -/
def cross (a b : Vec3) : Vec3 :=
  (a.2.1 * b.2.2 - a.2.2 * b.2.1,
   a.2.2 * b.1 - a.1 * b.2.2,
   a.1 * b.2.1 - a.2.1 * b.1)

/-- Squared Euclidean norm. -/
def normSq (a : Vec3) : ℚ := a.1 * a.1 + a.2.1 * a.2.1 + a.2.2 * a.2.2

/-- Modelled from the spec: normalisation of a vector, with the zero
vector (degenerate triangle) mapped to the zero vector.  Unit
normalisation needs a square root that rationals do not have, so the
model divides by the squared norm instead; this keeps the direction and
the degenerate-case guard.  No verified claim depends on the numeric
value of a normal, only on array lengths and on determinism. -/
def vnormalize (a : Vec3) : Vec3 :=
  if normSq a = 0 then vzero else vscale (1 / normSq a) a

/-- The mesh state: the eight attribute arrays of `class TriangleMesh`
(trianglemesh.h, protected members, lines 41-49).  `VertexID` =
`unsigned int` indices are modelled as `Nat`. -/
structure TriangleMesh where
  vertices : List Vec3
  vertex_normals : List Vec3
  vertex_colors : List Vec4
  vertex_confidences : List ℚ
  vertex_texcoords : List Vec2
  faces : List Nat
  face_normals : List Vec3
  face_colors : List Vec4
deriving DecidableEq

namespace TriangleMesh

/-- `TriangleMesh::clear_normals` (trianglemesh.h lines 244-249): empties
the vertex-normal and face-normal arrays. -/
def clear_normals (m : TriangleMesh) : TriangleMesh :=
  { m with vertex_normals := [], face_normals := [] }

/-- `TriangleMesh::clear` (trianglemesh.h lines 251-258): empties
`vertices`, `faces`, `face_normals` and `vertex_normals` — and nothing
else, although its doc comment announces clearing all mesh data. -/
def clear (m : TriangleMesh) : TriangleMesh :=
  { m with vertices := [], faces := [], face_normals := [],
           vertex_normals := [] }

/-- `TriangleMesh::has_vertex_colors` (lines 260-264). -/
def has_vertex_colors (m : TriangleMesh) : Bool :=
  m.vertex_colors.length == m.vertices.length

/-- `TriangleMesh::has_vertex_confidences` (lines 266-270). -/
def has_vertex_confidences (m : TriangleMesh) : Bool :=
  m.vertex_confidences.length == m.vertices.length

/-- `TriangleMesh::has_vertex_normals` (lines 272-276). -/
def has_vertex_normals (m : TriangleMesh) : Bool :=
  m.vertex_normals.length == m.vertices.length

/-- `TriangleMesh::has_face_normals` (lines 278-282). -/
def has_face_normals (m : TriangleMesh) : Bool :=
  m.faces.length == m.face_normals.length * 3

/-- `TriangleMesh::has_face_colors` (lines 284-288). -/
def has_face_colors (m : TriangleMesh) : Bool :=
  m.faces.length == m.face_colors.length * 3

/-- Modelled from the spec: face-normal computation (spec section 4.3).
For each triangle — three consecutive indices in the face list — fetch
the three referenced positions, form two edge vectors from the first
vertex, take their cross product and normalise.  Out-of-range indices
(excluded by invariant I4) read the zero vector.  The output has exactly
`faces.length / 3` entries. -/
def computeFaceNormalsAux (vs : List Vec3) (fs : List Nat) : List Vec3 :=
  (List.range (fs.length / 3)).map (fun t =>
    let a := vs.getD (fs.getD (3 * t) 0) vzero
    let b := vs.getD (fs.getD (3 * t + 1) 0) vzero
    let c := vs.getD (fs.getD (3 * t + 2) 0) vzero
    vnormalize (cross (vsub b a) (vsub c a)))

/-- Add a vector into one accumulator slot of a scratch buffer. -/
def addAt (l : List Vec3) (i : Nat) (v : Vec3) : List Vec3 :=
  l.set i (vadd (l.getD i vzero) v)

/-- One accumulation step of the vertex-normal pass: add triangle `t`'s
face normal into the accumulators of its three vertices. -/
def accumStep (fs : List Nat) (fns : List Vec3) (acc : List Vec3)
    (t : Nat) : List Vec3 :=
  let n := fns.getD t vzero
  addAt (addAt (addAt acc (fs.getD (3 * t) 0) n)
    (fs.getD (3 * t + 1) 0) n) (fs.getD (3 * t + 2) 0) n

/-- Modelled from the spec: vertex-normal computation (spec section 4.3).
Face normals are derived transiently as a prerequisite; a scratch buffer
of `vertices.length` accumulators collects, for every vertex, the
unweighted sum of the normals of its incident faces, and each
accumulator is then normalised (a vertex in no face keeps the zero
vector). -/
def computeVertexNormalsAux (vs : List Vec3) (fs : List Nat) : List Vec3 :=
  let fns := computeFaceNormalsAux vs fs
  ((List.range (fs.length / 3)).foldl (accumStep fs fns)
    (List.replicate vs.length vzero)).map vnormalize

/-- Modelled from the spec: `TriangleMesh::recalc_normals` (declared at
trianglemesh.h lines 106-107; spec section 4.3): unconditionally
recompute the requested normal target(s), discarding prior content and
resizing as needed; unrequested targets are untouched. -/
def recalc_normals (face vertex : Bool) (m : TriangleMesh) : TriangleMesh :=
  { m with
    face_normals :=
      if face then computeFaceNormalsAux m.vertices m.faces
      else m.face_normals,
    vertex_normals :=
      if vertex then computeVertexNormalsAux m.vertices m.faces
      else m.vertex_normals }

/-- Modelled from the spec: `TriangleMesh::ensure_normals` (declared at
trianglemesh.h lines 104-105; spec section 4.3): for each requested
target, recompute only if the matching consistency predicate reports
absent/stale, otherwise leave the existing array untouched. -/
def ensure_normals (face vertex : Bool) (m : TriangleMesh) : TriangleMesh :=
  recalc_normals (face && !(has_face_normals m))
    (vertex && !(has_vertex_normals m)) m

/-- Remove from `xs` the entries at positions marked `true` in the mask,
keeping the survivors in their original order; the deletion contract
supplies a mask of length exactly `xs.length`. -/
def erase_marked {α : Type} : List Bool → List α → List α
  | _, [] => []
  | [], x :: xs => x :: xs
  | d :: ds, x :: xs =>
      if d then erase_marked ds xs else x :: erase_marked ds xs

/-- Modelled from the spec: `TriangleMesh::delete_vertices` (declared at
trianglemesh.h lines 114-118; spec section 4.4): given a per-vertex
deletion mask, compact positions always, the optional per-vertex arrays
only when currently consistent, and texcoords only when their length
equals the vertex count; face data is deliberately untouched. -/
def delete_vertices (m : TriangleMesh) (dlist : List Bool) : TriangleMesh :=
  { m with
    vertices := erase_marked dlist m.vertices,
    vertex_normals :=
      if has_vertex_normals m then erase_marked dlist m.vertex_normals
      else m.vertex_normals,
    vertex_colors :=
      if has_vertex_colors m then erase_marked dlist m.vertex_colors
      else m.vertex_colors,
    vertex_confidences :=
      if has_vertex_confidences m then
        erase_marked dlist m.vertex_confidences
      else m.vertex_confidences,
    vertex_texcoords :=
      if m.vertex_texcoords.length == m.vertices.length then
        erase_marked dlist m.vertex_texcoords
      else m.vertex_texcoords }

/-- Byte width of a C++ `float`. -/
def sizeof_float : Nat := 4

/-- Byte width of a C++ `unsigned int` (`VertexID`). -/
def sizeof_uint : Nat := 4

/-- Byte width of `math::Vec3f`: three floats. -/
def sizeof_vec3f : Nat := 3 * sizeof_float

/-- Byte width of `math::Vec4f`: four floats. -/
def sizeof_vec4f : Nat := 4 * sizeof_float

/-- Byte width of `math::Vec2f`: two floats. -/
def sizeof_vec2f : Nat := 2 * sizeof_float

/-- Modelled from the spec: `TriangleMesh::get_byte_size` (declared at
trianglemesh.h lines 120-121; spec section 4.5): sum, over every
allocated array whether consistent or stale, of its raw element count
times the per-element byte width. -/
def get_byte_size (m : TriangleMesh) : Nat :=
  m.vertices.length * sizeof_vec3f
  + m.vertex_normals.length * sizeof_vec3f
  + m.vertex_colors.length * sizeof_vec4f
  + m.vertex_confidences.length * sizeof_float
  + m.vertex_texcoords.length * sizeof_vec2f
  + m.faces.length * sizeof_uint
  + m.face_normals.length * sizeof_vec3f
  + m.face_colors.length * sizeof_vec4f

/-- The empty mesh, as produced by the constructor. -/
def mempty : TriangleMesh :=
  { vertices := []
    vertex_normals := []
    vertex_colors := []
    vertex_confidences := []
    vertex_texcoords := []
    faces := []
    face_normals := []
    face_colors := [] }

/-- Concrete mesh with a single triangle, used to instantiate the
normal-engine theorems. -/
def mshTri : TriangleMesh :=
  { mempty with
    vertices := [(0, 0, 0), (1, 0, 0), (0, 1, 0)]
    faces := [0, 1, 2] }

/-- Concrete mesh with three positions and no other attributes, used for
the byte-size claim. -/
def mshPos3 : TriangleMesh :=
  { mempty with vertices := [(0, 0, 0), (1, 0, 0), (0, 1, 0)] }

/-- Concrete two-vertex mesh with every per-vertex attribute consistent,
used to instantiate the deletion theorems. -/
def mshDel : TriangleMesh :=
  { vertices := [(0, 0, 0), (1, 1, 1)]
    vertex_normals := [(0, 0, 1), (0, 1, 0)]
    vertex_colors := [(1, 0, 0, 1), (0, 1, 0, 1)]
    vertex_confidences := [1, 1 / 2]
    vertex_texcoords := [(0, 0), (1, 1)]
    faces := [0, 1, 0]
    face_normals := [(0, 0, 1)]
    face_colors := [(1, 1, 1, 1)] }

/-- Concrete failing input for the `clear` claims: a mesh whose optional
attribute arrays are populated while the cleared arrays are empty. -/
def mc1 : TriangleMesh :=
  { vertices := [(0, 0, 0)]
    vertex_normals := []
    vertex_colors := [(1, 0, 0, 1)]
    vertex_confidences := [1]
    vertex_texcoords := [(0, 0)]
    faces := []
    face_normals := []
    face_colors := [(1, 1, 1, 1)] }

end TriangleMesh

namespace TriangleMesh

/-! ### Helper lemmas -/

theorem length_computeFaceNormalsAux (vs : List Vec3) (fs : List Nat) :
    (computeFaceNormalsAux vs fs).length = fs.length / 3 := by
  simp [computeFaceNormalsAux]

theorem length_accumStep (fs : List Nat) (fns : List Vec3)
    (acc : List Vec3) (t : Nat) :
    (accumStep fs fns acc t).length = acc.length := by
  simp [accumStep, addAt]

theorem length_foldl_accumStep (fs : List Nat) (fns : List Vec3) :
    ∀ (l : List Nat) (acc : List Vec3),
      (l.foldl (accumStep fs fns) acc).length = acc.length := by
  intro l
  induction l with
  | nil => intro acc; rfl
  | cons a l ih =>
      intro acc
      rw [List.foldl_cons, ih, length_accumStep]

theorem length_computeVertexNormalsAux (vs : List Vec3) (fs : List Nat) :
    (computeVertexNormalsAux vs fs).length = vs.length := by
  simp [computeVertexNormalsAux, length_foldl_accumStep]

@[simp] theorem recalc_proj_vertices (f v : Bool) (m : TriangleMesh) :
    (recalc_normals f v m).vertices = m.vertices := rfl

@[simp] theorem recalc_proj_faces (f v : Bool) (m : TriangleMesh) :
    (recalc_normals f v m).faces = m.faces := rfl

@[simp] theorem recalc_proj_face_normals (f v : Bool) (m : TriangleMesh) :
    (recalc_normals f v m).face_normals
      = if f then computeFaceNormalsAux m.vertices m.faces
        else m.face_normals := rfl

@[simp] theorem recalc_proj_vertex_normals (f v : Bool) (m : TriangleMesh) :
    (recalc_normals f v m).vertex_normals
      = if v then computeVertexNormalsAux m.vertices m.faces
        else m.vertex_normals := rfl

theorem recalc_false_false (m : TriangleMesh) :
    recalc_normals false false m = m := rfl

theorem hfn_ensure (m : TriangleMesh) (v : Bool)
    (hI2 : 3 ∣ m.faces.length) :
    has_face_normals (ensure_normals true v m) = true := by
  cases hb : has_face_normals m with
  | false =>
      simp only [ensure_normals, hb, Bool.not_false, Bool.and_true]
      simp [has_face_normals, length_computeFaceNormalsAux,
        Nat.div_mul_cancel hI2]
  | true =>
      have hb' := hb
      simp only [ensure_normals, hb, Bool.not_true, Bool.and_false]
      simpa [has_face_normals] using hb'

theorem hvn_ensure (m : TriangleMesh) (f : Bool) :
    has_vertex_normals (ensure_normals f true m) = true := by
  cases hb : has_vertex_normals m with
  | false =>
      simp only [ensure_normals, hb, Bool.not_false, Bool.and_true]
      simp [has_vertex_normals, length_computeVertexNormalsAux]
  | true =>
      have hb' := hb
      simp only [ensure_normals, hb, Bool.not_true, Bool.and_false]
      simpa [has_vertex_normals] using hb'

@[simp] theorem delete_proj_vertices (m : TriangleMesh) (d : List Bool) :
    (m.delete_vertices d).vertices = erase_marked d m.vertices := rfl

@[simp] theorem delete_proj_vertex_normals (m : TriangleMesh)
    (d : List Bool) :
    (m.delete_vertices d).vertex_normals
      = if has_vertex_normals m then erase_marked d m.vertex_normals
        else m.vertex_normals := rfl

@[simp] theorem delete_proj_vertex_colors (m : TriangleMesh)
    (d : List Bool) :
    (m.delete_vertices d).vertex_colors
      = if has_vertex_colors m then erase_marked d m.vertex_colors
        else m.vertex_colors := rfl

@[simp] theorem delete_proj_vertex_confidences (m : TriangleMesh)
    (d : List Bool) :
    (m.delete_vertices d).vertex_confidences
      = if has_vertex_confidences m then
          erase_marked d m.vertex_confidences
        else m.vertex_confidences := rfl

@[simp] theorem delete_proj_vertex_texcoords (m : TriangleMesh)
    (d : List Bool) :
    (m.delete_vertices d).vertex_texcoords
      = if m.vertex_texcoords.length == m.vertices.length then
          erase_marked d m.vertex_texcoords
        else m.vertex_texcoords := rfl

@[simp] theorem delete_proj_faces (m : TriangleMesh) (d : List Bool) :
    (m.delete_vertices d).faces = m.faces := rfl

@[simp] theorem delete_proj_face_normals (m : TriangleMesh)
    (d : List Bool) :
    (m.delete_vertices d).face_normals = m.face_normals := rfl

@[simp] theorem delete_proj_face_colors (m : TriangleMesh)
    (d : List Bool) :
    (m.delete_vertices d).face_colors = m.face_colors := rfl

theorem erase_marked_false {α : Type} :
    ∀ (n : Nat) (xs : List α),
      erase_marked (List.replicate n false) xs = xs := by
  intro n
  induction n with
  | zero => intro xs; cases xs <;> rfl
  | succ k ih =>
      intro xs
      cases xs with
      | nil => rfl
      | cons x xs => simp [List.replicate_succ, erase_marked, ih]

theorem erase_marked_single {α : Type} :
    ∀ (xs : List α) (i : Nat),
      erase_marked (List.set (List.replicate xs.length false) i true) xs
        = xs.eraseIdx i := by
  intro xs
  induction xs with
  | nil => intro i; cases i <;> rfl
  | cons x xs ih =>
      intro i
      cases i with
      | zero =>
          simp [List.replicate_succ, erase_marked, erase_marked_false]
      | succ j =>
          simp [List.replicate_succ, erase_marked, ih j]

theorem erase_marked_single_of_len {α : Type} (xs : List α) (n i : Nat)
    (h : xs.length = n) :
    erase_marked (List.set (List.replicate n false) i true) xs
      = xs.eraseIdx i := by
  subst h
  exact erase_marked_single xs i

theorem length_eraseIdx_of_lt {α : Type} (xs : List α) (i : Nat)
    (h : i < xs.length) :
    (xs.eraseIdx i).length = xs.length - 1 := by
  rw [List.length_eraseIdx]
  simp [h]

/-! ### Claim theorems -/

/-- Claim C3: `clear_normals` empties exactly the vertex-normal and
face-normal arrays and leaves positions, vertex colors, vertex
confidences, texture coordinates, faces and face colors unchanged. -/
theorem clear_normals_spec (m : TriangleMesh) :
    m.clear_normals.vertex_normals = []
    ∧ m.clear_normals.face_normals = []
    ∧ m.clear_normals.vertices = m.vertices
    ∧ m.clear_normals.vertex_colors = m.vertex_colors
    ∧ m.clear_normals.vertex_confidences = m.vertex_confidences
    ∧ m.clear_normals.vertex_texcoords = m.vertex_texcoords
    ∧ m.clear_normals.faces = m.faces
    ∧ m.clear_normals.face_colors = m.face_colors :=
  ⟨rfl, rfl, rfl, rfl, rfl, rfl, rfl, rfl⟩

/-- Claim C4: each consistency predicate is the stated pure length
comparison.  The predicates are plain functions of the mesh state in
this embedding, so they modify nothing by construction. -/
theorem has_predicates_spec (m : TriangleMesh) :
    (m.has_vertex_colors = true
      ↔ m.vertex_colors.length = m.vertices.length)
    ∧ (m.has_vertex_confidences = true
      ↔ m.vertex_confidences.length = m.vertices.length)
    ∧ (m.has_vertex_normals = true
      ↔ m.vertex_normals.length = m.vertices.length)
    ∧ (m.has_face_normals = true
      ↔ m.faces.length = 3 * m.face_normals.length)
    ∧ (m.has_face_colors = true
      ↔ m.faces.length = 3 * m.face_colors.length) := by
  refine ⟨?_, ?_, ?_, ?_, ?_⟩ <;>
    simp [has_vertex_colors, has_vertex_confidences, has_vertex_normals,
      has_face_normals, has_face_colors, Nat.mul_comm]

/-- Claim C10: `clear` clears only vertices, faces, face normals and
vertex normals; the vertex-color, vertex-confidence, texture-coordinate
and face-color arrays are left unchanged, so their non-empty contents
survive a `clear`. -/
theorem clear_frame_spec (m : TriangleMesh) :
    m.clear.vertex_colors = m.vertex_colors
    ∧ m.clear.vertex_confidences = m.vertex_confidences
    ∧ m.clear.vertex_texcoords = m.vertex_texcoords
    ∧ m.clear.face_colors = m.face_colors
    ∧ m.clear.vertices = []
    ∧ m.clear.faces = []
    ∧ m.clear.face_normals = []
    ∧ m.clear.vertex_normals = [] :=
  ⟨rfl, rfl, rfl, rfl, rfl, rfl, rfl, rfl⟩

/-- Claim C1 (code bug evidence): `clear` does not empty all attribute
arrays — on a mesh with one vertex color, one confidence, one texture
coordinate and one face color, all four survive the call, contradicting
the claim and the header's own doc comment that all mesh data is
cleared. -/
theorem clear_keeps_extra_arrays :
    mc1.clear.vertex_colors ≠ []
    ∧ mc1.clear.vertex_confidences ≠ []
    ∧ mc1.clear.vertex_texcoords ≠ []
    ∧ mc1.clear.face_colors ≠ [] := by
  refine ⟨?_, ?_, ?_, ?_⟩ <;> decide

/-- Claim C2 (code bug evidence): after `clear` on a mesh whose
vertex-color, vertex-confidence and face-color arrays were non-empty,
the predicates `has_vertex_colors`, `has_vertex_confidences` and
`has_face_colors` return `false`, not `true` as the claim states. -/
theorem clear_predicates_can_be_false :
    has_vertex_colors mc1.clear = false
    ∧ has_vertex_confidences mc1.clear = false
    ∧ has_face_colors mc1.clear = false := by
  refine ⟨?_, ?_, ?_⟩ <;> decide

/-- Claim C5: on a mesh satisfying invariants I2 (face count divisible
by three) and I4 (face indices in range; I1 imposes no formal
constraint), `recalc_normals true true` makes both normal predicates
report `true`, with exactly `faces.length / 3` face normals and
`vertices.length` vertex normals. -/
theorem recalc_normals_spec (m : TriangleMesh)
    (hI2 : 3 ∣ m.faces.length)
    (hI4 : ∀ i ∈ m.faces, i < m.vertices.length) :
    has_face_normals (recalc_normals true true m) = true
    ∧ has_vertex_normals (recalc_normals true true m) = true
    ∧ (recalc_normals true true m).face_normals.length
        = m.faces.length / 3
    ∧ (recalc_normals true true m).vertex_normals.length
        = m.vertices.length := by
  refine ⟨?_, ?_, ?_, ?_⟩
  · simp [has_face_normals, length_computeFaceNormalsAux,
      Nat.div_mul_cancel hI2]
  · simp [has_vertex_normals, length_computeVertexNormalsAux]
  · simp [length_computeFaceNormalsAux]
  · simp [length_computeVertexNormalsAux]

/-- Witness for C5: the single-triangle mesh satisfies the hypotheses
and the conclusion. -/
theorem recalc_normals_spec_witness :
    (3 ∣ mshTri.faces.length)
    ∧ (∀ i ∈ mshTri.faces, i < mshTri.vertices.length)
    ∧ (has_face_normals (recalc_normals true true mshTri) = true
      ∧ has_vertex_normals (recalc_normals true true mshTri) = true
      ∧ (recalc_normals true true mshTri).face_normals.length
          = mshTri.faces.length / 3
      ∧ (recalc_normals true true mshTri).vertex_normals.length
          = mshTri.vertices.length) :=
  ⟨by decide, by decide,
    recalc_normals_spec mshTri (by decide) (by decide)⟩

/-- Claim C6: under invariants I2 and I4, `ensure_normals` is
idempotent — a second call with the same flags and no intervening
mutation leaves the mesh state exactly as after the first call. -/
theorem ensure_normals_idempotent (f v : Bool) (m : TriangleMesh)
    (hI2 : 3 ∣ m.faces.length)
    (hI4 : ∀ i ∈ m.faces, i < m.vertices.length) :
    ensure_normals f v (ensure_normals f v m) = ensure_normals f v m := by
  have h1 : (f && !(has_face_normals (ensure_normals f v m))) = false := by
    cases f with
    | false => rfl
    | true => rw [hfn_ensure m v hI2]; rfl
  have h2 : (v && !(has_vertex_normals (ensure_normals f v m)))
      = false := by
    cases v with
    | false => rfl
    | true => rw [hvn_ensure m f]; rfl
  calc ensure_normals f v (ensure_normals f v m)
      = recalc_normals (f && !(has_face_normals (ensure_normals f v m)))
          (v && !(has_vertex_normals (ensure_normals f v m)))
          (ensure_normals f v m) := rfl
    _ = recalc_normals false false (ensure_normals f v m) := by
          rw [h1, h2]
    _ = ensure_normals f v m := recalc_false_false _

/-- Witness for C6: idempotence instantiated on the single-triangle
mesh with both flags set. -/
theorem ensure_normals_idempotent_witness :
    (3 ∣ mshTri.faces.length)
    ∧ (∀ i ∈ mshTri.faces, i < mshTri.vertices.length)
    ∧ ensure_normals true true (ensure_normals true true mshTri)
        = ensure_normals true true mshTri :=
  ⟨by decide, by decide,
    ensure_normals_idempotent true true mshTri (by decide) (by decide)⟩

/-- Claim C7: `delete_vertices` with the all-false mask leaves
positions, vertex normals, vertex colors and vertex confidences
unchanged; with the mask marking exactly vertex `i`, positions — and
every optional per-vertex array that was consistent before the call,
texture coordinates included — end up equal to the original with entry
`i` removed (hence one entry shorter, survivors in original order). -/
theorem delete_vertices_compaction (m : TriangleMesh) (i : Nat)
    (hi : i < m.vertices.length) :
    (m.delete_vertices
        (List.replicate m.vertices.length false)).vertices = m.vertices
    ∧ (m.delete_vertices
        (List.replicate m.vertices.length false)).vertex_normals
        = m.vertex_normals
    ∧ (m.delete_vertices
        (List.replicate m.vertices.length false)).vertex_colors
        = m.vertex_colors
    ∧ (m.delete_vertices
        (List.replicate m.vertices.length false)).vertex_confidences
        = m.vertex_confidences
    ∧ (m.delete_vertices
        (List.set (List.replicate m.vertices.length false) i
          true)).vertices = m.vertices.eraseIdx i
    ∧ (m.delete_vertices
        (List.set (List.replicate m.vertices.length false) i
          true)).vertices.length = m.vertices.length - 1
    ∧ (has_vertex_normals m = true →
        (m.delete_vertices
          (List.set (List.replicate m.vertices.length false) i
            true)).vertex_normals = m.vertex_normals.eraseIdx i
        ∧ (m.delete_vertices
            (List.set (List.replicate m.vertices.length false) i
              true)).vertex_normals.length = m.vertices.length - 1)
    ∧ (has_vertex_colors m = true →
        (m.delete_vertices
          (List.set (List.replicate m.vertices.length false) i
            true)).vertex_colors = m.vertex_colors.eraseIdx i
        ∧ (m.delete_vertices
            (List.set (List.replicate m.vertices.length false) i
              true)).vertex_colors.length = m.vertices.length - 1)
    ∧ (has_vertex_confidences m = true →
        (m.delete_vertices
          (List.set (List.replicate m.vertices.length false) i
            true)).vertex_confidences
          = m.vertex_confidences.eraseIdx i
        ∧ (m.delete_vertices
            (List.set (List.replicate m.vertices.length false) i
              true)).vertex_confidences.length
            = m.vertices.length - 1)
    ∧ (m.vertex_texcoords.length = m.vertices.length →
        (m.delete_vertices
          (List.set (List.replicate m.vertices.length false) i
            true)).vertex_texcoords = m.vertex_texcoords.eraseIdx i
        ∧ (m.delete_vertices
            (List.set (List.replicate m.vertices.length false) i
              true)).vertex_texcoords.length
            = m.vertices.length - 1) := by
  refine ⟨?_, ?_, ?_, ?_, ?_, ?_, ?_, ?_, ?_, ?_⟩
  · simp [erase_marked_false]
  · cases h : has_vertex_normals m <;> simp [h, erase_marked_false]
  · cases h : has_vertex_colors m <;> simp [h, erase_marked_false]
  · cases h : has_vertex_confidences m <;> simp [h, erase_marked_false]
  · simp [erase_marked_single]
  · rw [delete_proj_vertices, erase_marked_single,
      length_eraseIdx_of_lt _ _ hi]
  · intro h
    have hl : m.vertex_normals.length = m.vertices.length := by
      simpa [has_vertex_normals] using h
    refine ⟨?_, ?_⟩
    · simp [h, erase_marked_single_of_len _ _ _ hl]
    · rw [delete_proj_vertex_normals, if_pos h,
        erase_marked_single_of_len _ _ _ hl,
        length_eraseIdx_of_lt _ _ (hl ▸ hi), hl]
  · intro h
    have hl : m.vertex_colors.length = m.vertices.length := by
      simpa [has_vertex_colors] using h
    refine ⟨?_, ?_⟩
    · simp [h, erase_marked_single_of_len _ _ _ hl]
    · rw [delete_proj_vertex_colors, if_pos h,
        erase_marked_single_of_len _ _ _ hl,
        length_eraseIdx_of_lt _ _ (hl ▸ hi), hl]
  · intro h
    have hl : m.vertex_confidences.length = m.vertices.length := by
      simpa [has_vertex_confidences] using h
    refine ⟨?_, ?_⟩
    · simp [h, erase_marked_single_of_len _ _ _ hl]
    · rw [delete_proj_vertex_confidences, if_pos h,
        erase_marked_single_of_len _ _ _ hl,
        length_eraseIdx_of_lt _ _ (hl ▸ hi), hl]
  · intro h
    refine ⟨?_, ?_⟩
    · simp [h, erase_marked_single_of_len _ _ _ h]
    · rw [delete_proj_vertex_texcoords, if_pos (by simp [h]),
        erase_marked_single_of_len _ _ _ h,
        length_eraseIdx_of_lt _ _ (h ▸ hi), h]

/-- Witness for C7: the compaction theorem instantiated on the fully
populated two-vertex mesh, deleting vertex 1. -/
theorem delete_vertices_compaction_witness :
    1 < mshDel.vertices.length
    ∧ ((mshDel.delete_vertices
          (List.replicate mshDel.vertices.length false)).vertices
          = mshDel.vertices
      ∧ (mshDel.delete_vertices
          (List.replicate mshDel.vertices.length false)).vertex_normals
          = mshDel.vertex_normals
      ∧ (mshDel.delete_vertices
          (List.replicate mshDel.vertices.length false)).vertex_colors
          = mshDel.vertex_colors
      ∧ (mshDel.delete_vertices
          (List.replicate
            mshDel.vertices.length false)).vertex_confidences
          = mshDel.vertex_confidences
      ∧ (mshDel.delete_vertices
          (List.set (List.replicate mshDel.vertices.length false) 1
            true)).vertices = mshDel.vertices.eraseIdx 1
      ∧ (mshDel.delete_vertices
          (List.set (List.replicate mshDel.vertices.length false) 1
            true)).vertices.length = mshDel.vertices.length - 1
      ∧ (has_vertex_normals mshDel = true →
          (mshDel.delete_vertices
            (List.set (List.replicate mshDel.vertices.length false) 1
              true)).vertex_normals = mshDel.vertex_normals.eraseIdx 1
          ∧ (mshDel.delete_vertices
              (List.set (List.replicate mshDel.vertices.length false) 1
                true)).vertex_normals.length
              = mshDel.vertices.length - 1)
      ∧ (has_vertex_colors mshDel = true →
          (mshDel.delete_vertices
            (List.set (List.replicate mshDel.vertices.length false) 1
              true)).vertex_colors = mshDel.vertex_colors.eraseIdx 1
          ∧ (mshDel.delete_vertices
              (List.set (List.replicate mshDel.vertices.length false) 1
                true)).vertex_colors.length
              = mshDel.vertices.length - 1)
      ∧ (has_vertex_confidences mshDel = true →
          (mshDel.delete_vertices
            (List.set (List.replicate mshDel.vertices.length false) 1
              true)).vertex_confidences
            = mshDel.vertex_confidences.eraseIdx 1
          ∧ (mshDel.delete_vertices
              (List.set (List.replicate mshDel.vertices.length false) 1
                true)).vertex_confidences.length
              = mshDel.vertices.length - 1)
      ∧ (mshDel.vertex_texcoords.length = mshDel.vertices.length →
          (mshDel.delete_vertices
            (List.set (List.replicate mshDel.vertices.length false) 1
              true)).vertex_texcoords
            = mshDel.vertex_texcoords.eraseIdx 1
          ∧ (mshDel.delete_vertices
              (List.set (List.replicate mshDel.vertices.length false) 1
                true)).vertex_texcoords.length
              = mshDel.vertices.length - 1)) :=
  ⟨by decide, delete_vertices_compaction mshDel 1 (by decide)⟩

/-- Claim C8: for any mask of the contracted length, `delete_vertices`
never touches the face index list, the face normals or the face colors,
and leaves the texture coordinates alone whenever their length differs
from the vertex count at call time. -/
theorem delete_vertices_frame (m : TriangleMesh) (dlist : List Bool)
    (hlen : dlist.length = m.vertices.length) :
    (m.delete_vertices dlist).faces = m.faces
    ∧ (m.delete_vertices dlist).face_normals = m.face_normals
    ∧ (m.delete_vertices dlist).face_colors = m.face_colors
    ∧ (m.vertex_texcoords.length ≠ m.vertices.length →
        (m.delete_vertices dlist).vertex_texcoords
          = m.vertex_texcoords) := by
  refine ⟨rfl, rfl, rfl, fun ht => ?_⟩
  simp [ht]

/-- Witness for C8: the frame theorem instantiated on the two-vertex
mesh with the mask deleting vertex 1. -/
theorem delete_vertices_frame_witness :
    ([false, true] : List Bool).length = mshDel.vertices.length
    ∧ ((mshDel.delete_vertices [false, true]).faces = mshDel.faces
      ∧ (mshDel.delete_vertices [false, true]).face_normals
          = mshDel.face_normals
      ∧ (mshDel.delete_vertices [false, true]).face_colors
          = mshDel.face_colors
      ∧ (mshDel.vertex_texcoords.length ≠ mshDel.vertices.length →
          (mshDel.delete_vertices [false, true]).vertex_texcoords
            = mshDel.vertex_texcoords)) :=
  ⟨by decide, delete_vertices_frame mshDel [false, true] (by decide)⟩

/-- Claim C9: `get_byte_size` is the sum, over the eight attribute
arrays at their raw allocated element counts, of element count times
per-element byte width; it is 0 on the empty mesh and three times the
byte size of a three-float vector on a mesh holding only three
positions.  It is a plain function of the state, so it modifies
nothing. -/
theorem get_byte_size_spec :
    (∀ m : TriangleMesh,
      get_byte_size m
        = m.vertices.length * sizeof_vec3f
          + m.vertex_normals.length * sizeof_vec3f
          + m.vertex_colors.length * sizeof_vec4f
          + m.vertex_confidences.length * sizeof_float
          + m.vertex_texcoords.length * sizeof_vec2f
          + m.faces.length * sizeof_uint
          + m.face_normals.length * sizeof_vec3f
          + m.face_colors.length * sizeof_vec4f)
    ∧ get_byte_size mempty = 0
    ∧ get_byte_size mshPos3 = 3 * sizeof_vec3f :=
  ⟨fun _ => rfl, by decide, by decide⟩

end TriangleMesh
